import Mathlib

/-!
Verification of the PDF-Compare packaging scripts.

Shallow embedding of the three scripts of the repository:
  scripts/download_poppler.py     (Dependency Fetcher)
  scripts/build_macos.py          (Bundle Assembler)
  scripts/pyinstaller_hooks/rthook_tcltk_macos.py (Runtime Path Hook)

Filesystem effects are modelled explicitly: the Fetcher acts on the list of
immediate children of the vendor directory; the Assembler and the hook take
existence predicates over path strings.  Paths are written relative to the
project root (the scripts build the same paths from an absolute root).
-/

namespace PDFCompare

/-! ### Python string primitives

The scripts use `str.strip`, `str.lower` and `str.startswith`.  They are
embedded structurally over the character list of a string (all uses in the
scripts are ASCII). -/

/-- Python `str.strip()`: remove whitespace from both ends. -/
def pyStrip (s : String) : String :=
  ⟨((s.data.dropWhile Char.isWhitespace).reverse.dropWhile
      Char.isWhitespace).reverse⟩

/-- Python `str.lower()`. -/
def pyLower (s : String) : String :=
  ⟨s.data.map Char.toLower⟩

/-- Python `s.startswith(p)`. -/
def pyStartsWith (s p : String) : Bool :=
  p.data.isPrefixOf s.data

/-! ## Dependency Fetcher: scripts/download_poppler.py

An `Entry` is one immediate child of the vendor directory.  The flags record
whether the child is a directory, whether the internal subdirectory
Library/bin exists inside it, and whether Library/bin/pdftoppm.exe exists
inside it (the flags are what the script probes with `is_dir` and `exists`).
-/

structure Entry where
  name : String
  isDir : Bool
  hasLibBin : Bool
  hasExe : Bool
deriving DecidableEq, Repr

/-- State of the vendor directory: its immediate children and whether the
temporary archive file vendor/poppler.zip is present. -/
structure FetchState where
  entries : List Entry
  zipPresent : Bool
deriving DecidableEq, Repr

/-- Outcome of one run of the Fetcher function `main`:  `skipped` is the early
return when the operator declines a re-download; `downloadError` is the
`sys.exit(1)` after a failed download; `verifyError` is the `sys.exit(1)`
after the final existence check of the canonical binary fails;
`success` is the SUCCESS report. -/
inductive FetchResult where
  | skipped
  | downloadError
  | verifyError
  | success
deriving DecidableEq, Repr

/-- The check `poppler_dir.exists() and (poppler_dir / "Library" / "bin" /
"pdftoppm.exe").exists()`: some child is named `poppler` and holds the
binary.  The same condition is the final verification of the script. -/
def popplerBinaryPresent (es : List Entry) : Bool :=
  es.any (fun e => e.name == "poppler" && e.hasExe)

/-- The root-detection predicate of the loop over `vendor_dir.iterdir()`:
`item.is_dir() and item.name.startswith(("poppler", "Release"))` and
`(item / "Library" / "bin").exists()`. -/
def popplerRootMatch (e : Entry) : Bool :=
  e.isDir && (pyStartsWith e.name "poppler" || pyStartsWith e.name "Release")
    && e.hasLibBin

/-- The detection loop: the first matching child, if any (`extracted_dir`). -/
def detectRoot (es : List Entry) : Option Entry :=
  es.find? popplerRootMatch

/-- Normalization step: `if extracted_dir and extracted_dir != poppler_dir:`
delete any stale `poppler` child and rename the detected root to `poppler`
(directory children have pairwise distinct names, so removal by name models
`shutil.rmtree` and `Path.rename`). -/
def normalizeRoot (es : List Entry) : List Entry :=
  match detectRoot es with
  | none => es
  | some e =>
    if e.name = "poppler" then es
    else { e with name := "poppler" } ::
      es.filter (fun x => x.name != "poppler" && x.name != e.name)

/-- The part of `main` after the overwrite prompt: download (fatal on
failure, after printing manual instructions), extraction of the archive
top-level children into the vendor directory, root detection and
normalization, unconditional deletion of the zip, final verification. -/
def fetcherRest (s : FetchState) (downloadOk : Bool) (archive : List Entry) :
    FetchResult × FetchState :=
  if downloadOk then
    let es1 := s.entries ++ archive
    let es2 := normalizeRoot es1
    if popplerBinaryPresent es2 then (FetchResult.success, ⟨es2, false⟩)
    else (FetchResult.verifyError, ⟨es2, false⟩)
  else (FetchResult.downloadError, s)

/-- The Fetcher function `main`, parametrised by the raw prompt answer of the operator,
whether the download succeeds, and the top-level children the archive
extracts to.  The answer is normalised by `.strip().lower()` and compared
with the single letter y; on confirmation the existing canonical directory
is removed with `shutil.rmtree` before the download starts. -/
def fetcherMain (s : FetchState) (answer : String) (downloadOk : Bool)
    (archive : List Entry) : FetchResult × FetchState :=
  if popplerBinaryPresent s.entries then
    if pyLower (pyStrip answer) ≠ "y" then (FetchResult.skipped, s)
    else
      fetcherRest ⟨s.entries.filter (fun x => x.name != "poppler"),
        s.zipPresent⟩ downloadOk archive
  else fetcherRest s downloadOk archive

/-- The `progress_hook` percentage:
`int(count * block_size * 100 / total_size)` — exact integer truncation of
the ratio (the Python float division is modelled exactly). -/
def progressPercent (count blockSize totalSize : Nat) : Nat :=
  count * blockSize * 100 / totalSize

/-! ## Bundle Assembler: scripts/build_macos.py

Paths are relative to the project root (the script runs `os.chdir` to the
project root and builds paths from it).  The filesystem is an existence
predicate on path strings.  The Tcl/Tk scan of `find_tcl_tk_libs` depends on
the Python installation, so its results (binary paths, and data directories
paired with their basenames) are parameters, as is the resolved icon. -/

/-- Canonical vendor toolkit directory, `project_root / "vendor" / "poppler"`. -/
def popplerDir : String := "vendor/poppler"

/-- The bundled-toolkit check of `main`:
`poppler_bin.exists() and (poppler_bin / "pdftoppm").exists()` with
`poppler_bin = poppler_dir / "bin"`. -/
def hasBundledPoppler (fs : String → Bool) : Bool :=
  fs (popplerDir ++ "/bin") && fs (popplerDir ++ "/bin/pdftoppm")

/-- The single argument that embeds the vendor toolkit directory:
`--add-data={poppler_dir}:poppler`. -/
def popplerEmbedArg : String := "--add-data=" ++ popplerDir ++ ":poppler"

/-- The fixed initial `pyinstaller_args` list of `main`. -/
def baseArgs : List String :=
  ["pyinstaller", "--onefile", "--windowed", "--name=PDF Compare", "--clean",
   "--add-data=python/comparator.py:python",
   "--add-data=python/compare_pdf.py:python",
   "--collect-all=customtkinter", "--collect-all=tkinter",
   "--runtime-hook=scripts/pyinstaller_hooks/rthook_tcltk_macos.py",
   "--codesign-identity=-"]

/-- The fixed `hidden_imports` list. -/
def hiddenImports : List String :=
  ["PIL", "PIL.Image", "customtkinter", "cv2", "numpy", "pdf2image",
   "pdfplumber"]

/-- Entry point appended last: `project_root / "python" / "main.py"`. -/
def entryPoint : String := "python/main.py"

/-- The complete PyInstaller argument list in the order `main` appends:
base arguments, Tcl/Tk binaries (each embedded at the bundle root), Tcl/Tk
data directories (each embedded under its own name), the vendor toolkit
directory when the bundled check succeeded, hidden imports, the optional
icon, the bundle identifier, and the entry point. -/
def pyinstallerArgs (bundled : Bool) (tclBinaries : List String)
    (tclData : List (String × String)) (icon : Option String) : List String :=
  baseArgs
  ++ tclBinaries.map (fun l => "--add-binary=" ++ l ++ ":.")
  ++ tclData.map (fun d => "--add-data=" ++ d.1 ++ ":" ++ d.2)
  ++ (if bundled then [popplerEmbedArg] else [])
  ++ hiddenImports.map (fun i => "--hidden-import=" ++ i)
  ++ (match icon with | some p => ["--icon=" ++ p] | none => [])
  ++ ["--osx-bundle-identifier=com.pdfcompare.app", entryPoint]

/-! ## Runtime Path Hook: scripts/pyinstaller_hooks/rthook_tcltk_macos.py

The observable effects of the hook are the environment variables it sets and the
shared libraries it loads with `ctypes.CDLL(..., mode=ctypes.RTLD_GLOBAL)`,
in order.  `isdir` and `fsExists` are the `os.path.isdir` and
`os.path.exists`; `frozen` is `getattr(sys, "frozen", False)`; `bundleDir`
is `sys._MEIPASS`. -/

structure HookResult where
  env : List (String × String)
  loaded : List String
deriving DecidableEq, Repr

/-- The module body of the runtime hook.  When not frozen the whole body is
skipped.  When frozen: set TCL_LIBRARY / TK_LIBRARY if the version-9.0 data
directories exist, resolve each of the two shared libraries by the primary
9.0 name with an independent fallback to the 8.6 name, and load each
resolved library that exists into the global symbol namespace. -/
def rthook (frozen : Bool) (bundleDir : String)
    (isdir fsExists : String → Bool) : HookResult :=
  if frozen then
    let tclDir := bundleDir ++ "/tcl9.0"
    let tkDir := bundleDir ++ "/tk9.0"
    let env :=
      (if isdir tclDir then [("TCL_LIBRARY", tclDir)] else [])
      ++ (if isdir tkDir then [("TK_LIBRARY", tkDir)] else [])
    let tclLib :=
      if fsExists (bundleDir ++ "/libtcl9.0.dylib")
      then bundleDir ++ "/libtcl9.0.dylib"
      else bundleDir ++ "/libtcl8.6.dylib"
    let tkLib :=
      if fsExists (bundleDir ++ "/libtcl9tk9.0.dylib")
      then bundleDir ++ "/libtcl9tk9.0.dylib"
      else bundleDir ++ "/libtk8.6.dylib"
    let loaded :=
      (if fsExists tclLib then [tclLib] else [])
      ++ (if fsExists tkLib then [tkLib] else [])
    ⟨env, loaded⟩
  else ⟨[], []⟩

/-! ## Helper lemmas -/

/-- A filter returning a singleton means the detection loop stops at exactly
that element. -/
theorem find?_of_filter_eq_singleton {α : Type} {p : α → Bool} :
    ∀ {l : List α} {e : α}, l.filter p = [e] → l.find? p = some e := by
  intro l
  induction l with
  | nil => intro e h; simp [List.filter] at h
  | cons a t ih =>
    intro e h
    by_cases hpa : p a
    · rw [List.filter_cons, if_pos hpa] at h
      injection h with h1 h2
      rw [h1] at hpa ⊢
      exact List.find?_cons_of_pos t hpa
    · rw [List.filter_cons, if_neg hpa] at h
      rw [List.find?_cons_of_neg t hpa]
      exact ih h

/-- Membership and satisfaction extracted from a singleton filter. -/
theorem mem_and_sat_of_filter_eq_singleton {α : Type} {p : α → Bool}
    {l : List α} {e : α} (h : l.filter p = [e]) : e ∈ l ∧ p e = true := by
  have : e ∈ l.filter p := by rw [h]; exact List.mem_singleton_self e
  exact List.mem_filter.mp this

/-- The zip flag is cleared by every run of the post-prompt phase whose
download succeeded. -/
theorem fetcherRest_zip_cleared (s : FetchState) (archive : List Entry) :
    (fetcherRest s true archive).2.zipPresent = false := by
  unfold fetcherRest
  simp only [if_true]
  split <;> rfl

/-! ## Claim theorems -/

/-- C5 counterexample: the raw operator answer Y is an answer other than the
letter y, yet with an existing installation it does not end the run as
skipped: the run re-fetches, and (download failing) leaves the vendor
directory with the existing canonical installation deleted. -/
theorem fetcher_overwrite_prompt_cex :
    "Y" ≠ "y"
    ∧ (fetcherMain ⟨[⟨"poppler", true, true, true⟩], false⟩ "Y" false
        []).1 ≠ FetchResult.skipped
    ∧ (fetcherMain ⟨[⟨"poppler", true, true, true⟩], false⟩ "Y" false
        []).2.entries = [] :=
  ⟨by decide, by decide, by decide⟩

/-- C5 (amended): when the canonical path already contains the expected
binary, any operator answer whose stripped, lowercased form differs from
the letter y — including empty input — ends the run as skipped with the
whole state untouched: no download, no deletion, no modification. -/
theorem fetcher_decline_untouched (s : FetchState) (answer : String)
    (downloadOk : Bool) (archive : List Entry)
    (hins : popplerBinaryPresent s.entries = true)
    (hans : pyLower (pyStrip answer) ≠ "y") :
    fetcherMain s answer downloadOk archive = (FetchResult.skipped, s) := by
  simp [fetcherMain, hins, hans]

/-- C5 witness: an existing installation and the empty answer. -/
theorem fetcher_decline_untouched_witness :
    popplerBinaryPresent [⟨"poppler", true, true, true⟩] = true
    ∧ pyLower (pyStrip "") ≠ "y"
    ∧ fetcherMain ⟨[⟨"poppler", true, true, true⟩], false⟩ "" true []
        = (FetchResult.skipped, ⟨[⟨"poppler", true, true, true⟩], false⟩) :=
  ⟨by decide, by decide,
    fetcher_decline_untouched ⟨[⟨"poppler", true, true, true⟩], false⟩ ""
      true [] (by decide) (by decide)⟩

/-- C9: on a confirmed re-download the Fetcher removes the entire existing
canonical vendor directory before the download starts, so a failing
download exits with the download-failure diagnosis and no child named
poppler left in the vendor directory: the previously working installation
is gone. -/
theorem fetcher_confirmed_refetch_not_atomic (s : FetchState)
    (answer : String) (archive : List Entry)
    (hins : popplerBinaryPresent s.entries = true)
    (hans : pyLower (pyStrip answer) = "y") :
    (fetcherMain s answer false archive).1 = FetchResult.downloadError
    ∧ ∀ e ∈ (fetcherMain s answer false archive).2.entries,
        e.name ≠ "poppler" := by
  constructor
  · simp [fetcherMain, hins, hans, fetcherRest]
  · intro e he
    simp only [fetcherMain, hins, hans, if_true, ne_eq,
      not_true_eq_false, if_false, fetcherRest] at he
    simp [List.mem_filter] at he
    exact he.2

/-- C9 witness: existing installation, answer y, failing download. -/
theorem fetcher_confirmed_refetch_not_atomic_witness :
    popplerBinaryPresent [⟨"poppler", true, true, true⟩] = true
    ∧ pyLower (pyStrip "y") = "y"
    ∧ (fetcherMain ⟨[⟨"poppler", true, true, true⟩], false⟩ "y" false
        []).1 = FetchResult.downloadError
    ∧ ∀ e ∈ (fetcherMain ⟨[⟨"poppler", true, true, true⟩], false⟩ "y"
        false []).2.entries, e.name ≠ "poppler" :=
  ⟨by decide, by decide,
    (fetcher_confirmed_refetch_not_atomic
      ⟨[⟨"poppler", true, true, true⟩], false⟩ "y" [] (by decide)
      (by decide)).1,
    (fetcher_confirmed_refetch_not_atomic
      ⟨[⟨"poppler", true, true, true⟩], false⟩ "y" [] (by decide)
      (by decide)).2⟩

/-- C4: every run whose download succeeded and that was not skipped at the
prompt ends with the temporary archive file absent, whatever the outcome of
root detection and final verification: the zip is deleted unconditionally
after extraction. -/
theorem fetcher_zip_removed (s : FetchState) (answer : String)
    (archive : List Entry)
    (h : (fetcherMain s answer true archive).1 ≠ FetchResult.skipped) :
    (fetcherMain s answer true archive).2.zipPresent = false := by
  unfold fetcherMain
  unfold fetcherMain at h
  by_cases hins : popplerBinaryPresent s.entries
  · by_cases hans : pyLower (pyStrip answer) ≠ "y"
    · rw [if_pos hins, if_pos hans] at h
      exact absurd rfl h
    · rw [if_pos hins, if_neg hans]
      exact fetcherRest_zip_cleared _ archive
  · rw [if_neg hins]
    exact fetcherRest_zip_cleared _ archive

/-- C2 counterexample: two runs, one whose archive layout lacks the expected
internal binary subdirectory everywhere (root detection finds nothing) and
one that passes root detection and normalization but lacks the binary
itself, terminate with the identical fatal result: the code has no
extraction-structure diagnosis distinct from the post-fetch verification
failure, so it does not have three mutually distinct failure reports. -/
theorem fetcher_failure_modes_cex :
    (fetcherMain ⟨[], false⟩ "" true
        [⟨"Release-24.08.0-0", true, false, false⟩]).1
      = FetchResult.verifyError
    ∧ (fetcherMain ⟨[], false⟩ "" true
        [⟨"poppler-24.08.0-0", true, true, false⟩]).1
      = FetchResult.verifyError :=
  ⟨by decide, by decide⟩

/-- C2 (amended): the Fetcher has two mutually distinct fatal failure
reports, download failure and post-fetch verification failure; an archive
layout in which no child carries a known name prefix together with the
expected internal binary subdirectory is not diagnosed separately — the run
terminates with the post-fetch verification failure, which is distinct from
the download failure and from the skipped outcome. -/
theorem fetcher_structure_failure_diagnosis (s : FetchState) (answer : String)
    (archive : List Entry)
    (hni : popplerBinaryPresent s.entries = false)
    (hnomatch : ∀ e ∈ s.entries ++ archive, popplerRootMatch e = false)
    (hnobin : popplerBinaryPresent (s.entries ++ archive) = false) :
    (fetcherMain s answer true archive).1 = FetchResult.verifyError
    ∧ FetchResult.verifyError ≠ FetchResult.downloadError
    ∧ FetchResult.verifyError ≠ FetchResult.skipped := by
  have hfind : (s.entries ++ archive).find? popplerRootMatch = none :=
    List.find?_eq_none.mpr (fun x hx => by simp [hnomatch x hx])
  have hnorm : normalizeRoot (s.entries ++ archive) = s.entries ++ archive := by
    unfold normalizeRoot detectRoot
    rw [hfind]
  refine ⟨?_, by decide, by decide⟩
  simp [fetcherMain, hni, fetcherRest, hnorm, hnobin]

/-- C2 witness: an archive whose only child is named after the release tag
but has no Library/bin inside. -/
theorem fetcher_structure_failure_diagnosis_witness :
    popplerBinaryPresent ([] : List Entry) = false
    ∧ (∀ e ∈ ([] : List Entry) ++ [(⟨"Release-24.08.0-0", true, false,
        false⟩ : Entry)], popplerRootMatch e = false)
    ∧ (fetcherMain ⟨[], false⟩ "n" true
        [⟨"Release-24.08.0-0", true, false, false⟩]).1
      = FetchResult.verifyError :=
  ⟨by decide, by decide,
    (fetcher_structure_failure_diagnosis ⟨[], false⟩ "n"
      [⟨"Release-24.08.0-0", true, false, false⟩] (by decide) (by decide)
      (by decide)).1⟩

/-- C3 helper: with pairwise distinct child names, a member named poppler is
counted exactly once. -/
theorem countP_poppler_eq_one (es : List Entry) (e : Entry)
    (hmem : e ∈ es) (hname : e.name = "poppler")
    (hnodup : (es.map (fun x => x.name)).Nodup) :
    es.countP (fun x => x.name == "poppler") = 1 := by
  induction es with
  | nil => cases hmem
  | cons a t ih =>
    rw [List.map_cons, List.nodup_cons] at hnodup
    rw [List.countP_cons]
    rcases List.mem_cons.mp hmem with hea | het
    · subst hea
      have hz : t.countP (fun x => x.name == "poppler") = 0 := by
        rw [List.countP_eq_zero]
        intro x hx hpx
        apply hnodup.1
        rw [List.mem_map]
        refine ⟨x, hx, ?_⟩
        have : x.name = "poppler" := by simpa using hpx
        rw [this, hname]
      rw [hz, hname]
      simp
    · have hpa : ¬ (a.name == "poppler") = true := by
        intro hpa
        apply hnodup.1
        rw [List.mem_map]
        refine ⟨e, het, ?_⟩
        have : a.name = "poppler" := by simpa using hpa
        rw [this, hname]
      rw [if_neg hpa, ih het hnodup.2]

/-- C3 counterexample: a layout with exactly one matching child — its name
starts with the known prefix Release and it contains the Library/bin
subdirectory — but no pdftoppm.exe inside it: after detection and
normalization the canonical binary is still not resolvable, so the final
verification fails. -/
theorem fetcher_normalization_cex :
    (([⟨"Release-24.08.0-0", true, true, false⟩] : List Entry).filter
        popplerRootMatch = [⟨"Release-24.08.0-0", true, true, false⟩])
    ∧ popplerBinaryPresent
        (normalizeRoot [⟨"Release-24.08.0-0", true, true, false⟩]) = false :=
  ⟨by decide, by decide⟩

/-- C3 (amended): when exactly one immediate child matches root detection
(known name prefix and the Library/bin subdirectory) and that child also
holds the expected binary inside Library/bin, the Fetcher selects that
child first, normalization deletes any stale canonical child and renames
the root to poppler (leaving exactly one child of that name), the canonical
binary is then resolvable, and detection re-run after normalization again
finds a root, now the canonical one. -/
theorem fetcher_root_normalization (es : List Entry) (e : Entry)
    (hone : es.filter popplerRootMatch = [e])
    (hexe : e.hasExe = true)
    (hnodup : (es.map (fun x => x.name)).Nodup) :
    detectRoot es = some e
    ∧ popplerBinaryPresent (normalizeRoot es) = true
    ∧ detectRoot (normalizeRoot es) = some { e with name := "poppler" }
    ∧ (normalizeRoot es).countP (fun x => x.name == "poppler") = 1 := by
  obtain ⟨hmem, hp⟩ := mem_and_sat_of_filter_eq_singleton hone
  have hdet : detectRoot es = some e := find?_of_filter_eq_singleton hone
  have hp' := hp
  unfold popplerRootMatch at hp'
  rw [Bool.and_eq_true, Bool.and_eq_true] at hp'
  obtain ⟨⟨hdir, hpre⟩, hlib⟩ := hp'
  by_cases hname : e.name = "poppler"
  · have hfind : List.find? popplerRootMatch es = some e := hdet
    have hnorm : normalizeRoot es = es := by
      unfold normalizeRoot detectRoot
      rw [hfind]
      simp [hname]
    have heqe : ({ e with name := "poppler" } : Entry) = e := by
      cases e
      simp_all
    refine ⟨hdet, ?_, ?_, ?_⟩
    · rw [hnorm]
      unfold popplerBinaryPresent
      rw [List.any_eq_true]
      exact ⟨e, hmem, by simp [hname, hexe]⟩
    · rw [hnorm, heqe]
      exact hdet
    · rw [hnorm]
      exact countP_poppler_eq_one es e hmem hname hnodup
  · have hfind : List.find? popplerRootMatch es = some e := hdet
    have hnorm : normalizeRoot es =
        { e with name := "poppler" } ::
          es.filter (fun x => x.name != "poppler" && x.name != e.name) := by
      unfold normalizeRoot detectRoot
      rw [hfind]
      simp [hname]
    refine ⟨hdet, ?_, ?_, ?_⟩
    · rw [hnorm]
      unfold popplerBinaryPresent
      rw [List.any_cons]
      simp [hexe]
    · rw [hnorm]
      apply List.find?_cons_of_pos
      unfold popplerRootMatch
      simp only [hdir, hlib, Bool.and_true, Bool.true_and]
      have : pyStartsWith "poppler" "poppler" = true := by decide
      rw [this]
      simp
    · rw [hnorm, List.countP_cons]
      have hz : (es.filter
          (fun x => x.name != "poppler" && x.name != e.name)).countP
          (fun x => x.name == "poppler") = 0 := by
        rw [List.countP_eq_zero]
        intro x hx hpx
        have hcond := (List.mem_filter.mp hx).2
        rw [Bool.and_eq_true] at hcond
        have hx1 : x.name ≠ "poppler" := by simpa using hcond.1
        exact hx1 (by simpa using hpx)
      rw [hz]
      simp

/-- C3 witness: a single extracted root named after the release tag holding
Library/bin and the binary. -/
theorem fetcher_root_normalization_witness :
    (([⟨"Release-24.08.0-0", true, true, true⟩] : List Entry).filter
        popplerRootMatch = [⟨"Release-24.08.0-0", true, true, true⟩])
    ∧ detectRoot [⟨"Release-24.08.0-0", true, true, true⟩]
        = some ⟨"Release-24.08.0-0", true, true, true⟩
    ∧ popplerBinaryPresent
        (normalizeRoot [⟨"Release-24.08.0-0", true, true, true⟩]) = true
    ∧ detectRoot (normalizeRoot [⟨"Release-24.08.0-0", true, true, true⟩])
        = some ⟨"poppler", true, true, true⟩
    ∧ (normalizeRoot [⟨"Release-24.08.0-0", true, true, true⟩]).countP
        (fun x => x.name == "poppler") = 1 := by
  have h := fetcher_root_normalization
    [⟨"Release-24.08.0-0", true, true, true⟩]
    ⟨"Release-24.08.0-0", true, true, true⟩ (by decide) (by decide)
    (by decide)
  exact ⟨by decide, h.1, h.2.1, h.2.2.1, h.2.2.2⟩

/-- C4 witness: a run that fails final verification still has the zip
removed. -/
theorem fetcher_zip_removed_witness :
    (fetcherMain ⟨[], false⟩ "" true
        [⟨"Release-24.08.0-0", true, false, false⟩]).1 ≠ FetchResult.skipped
    ∧ (fetcherMain ⟨[], false⟩ "" true
        [⟨"Release-24.08.0-0", true, false, false⟩]).2.zipPresent = false :=
  ⟨by decide,
    fetcher_zip_removed ⟨[], false⟩ ""
      [⟨"Release-24.08.0-0", true, false, false⟩] (by decide)⟩

/-- C6 counterexample: on the final block the byte count passed to the hook
exceeds the total (2 blocks of 8192 bytes against a 10000 byte file), and
the reported percentage is 163 — outside the claimed range 0 to 100,
because the code does not clamp the ratio. -/
theorem progress_percent_cex :
    progressPercent 2 8192 10000 = 163
    ∧ 100 < progressPercent 2 8192 10000 :=
  ⟨by decide, by decide⟩

/-- C6 (amended): the reported percentage is the truncated ratio of
bytes-so-far to total expected bytes, and it lies in the range 0 to 100
whenever bytes-so-far does not exceed the positive total; when bytes-so-far
exceeds the total the report can exceed 100. -/
theorem progress_percent_bounded (count blockSize totalSize : Nat)
    (ht : 0 < totalSize) (hle : count * blockSize ≤ totalSize) :
    progressPercent count blockSize totalSize ≤ 100 := by
  unfold progressPercent
  calc count * blockSize * 100 / totalSize
      ≤ totalSize * 100 / totalSize :=
        Nat.div_le_div_right (Nat.mul_le_mul_right 100 hle)
    _ = 100 := Nat.mul_div_cancel_left 100 ht

/-- C6 witness: half of a download, exact bound holds. -/
theorem progress_percent_bounded_witness :
    0 < 8192 ∧ 1 * 4096 ≤ 8192 ∧ progressPercent 1 4096 8192 ≤ 100 :=
  ⟨by decide, by decide,
    progress_percent_bounded 1 4096 8192 (by decide) (by decide)⟩

/-- C1: when the canonical vendor binary exists at vendor/poppler/bin (the
macOS bin subpath), the bundled-toolkit check returns true, and the
argument list built for PyInstaller contains the vendor embed argument
exactly once when the check holds and never otherwise — while in both cases
the list is fully assembled with the entry point as its final argument, so
the build proceeds.  The Tcl/Tk scan results and the icon are parameters;
the hypotheses state that none of them coincides with the vendor embed
argument (they are drawn from the Python installation, not the vendor
directory). -/
theorem bundled_poppler_embedding (fs : String → Bool)
    (tclBinaries : List String) (tclData : List (String × String))
    (icon : Option String)
    (h1 : ∀ l ∈ tclBinaries, "--add-binary=" ++ l ++ ":." ≠ popplerEmbedArg)
    (h2 : ∀ d ∈ tclData, "--add-data=" ++ d.1 ++ ":" ++ d.2 ≠ popplerEmbedArg)
    (h3 : ∀ p, icon = some p → "--icon=" ++ p ≠ popplerEmbedArg) :
    (fs (popplerDir ++ "/bin") = true →
      fs (popplerDir ++ "/bin/pdftoppm") = true →
      hasBundledPoppler fs = true)
    ∧ (pyinstallerArgs (hasBundledPoppler fs) tclBinaries tclData
        icon).count popplerEmbedArg
      = (if hasBundledPoppler fs then 1 else 0)
    ∧ (pyinstallerArgs (hasBundledPoppler fs) tclBinaries tclData
        icon).getLast? = some entryPoint := by
  have hbase : baseArgs.count popplerEmbedArg = 0 := by decide
  have hm1 : (tclBinaries.map
      (fun l => "--add-binary=" ++ l ++ ":.")).count popplerEmbedArg = 0 := by
    rw [List.count_eq_zero]
    intro hmem
    obtain ⟨x, hx, hfx⟩ := List.mem_map.mp hmem
    exact h1 x hx hfx
  have hm2 : (tclData.map
      (fun d => "--add-data=" ++ d.1 ++ ":" ++ d.2)).count
      popplerEmbedArg = 0 := by
    rw [List.count_eq_zero]
    intro hmem
    obtain ⟨x, hx, hfx⟩ := List.mem_map.mp hmem
    exact h2 x hx hfx
  have hm3 : (hiddenImports.map
      (fun i => "--hidden-import=" ++ i)).count popplerEmbedArg = 0 := by
    decide
  have hicon : (match icon with
      | some p => ["--icon=" ++ p]
      | none => ([] : List String)).count popplerEmbedArg = 0 := by
    cases icon with
    | none => rfl
    | some p =>
      rw [List.count_eq_zero]
      intro hmem
      exact h3 p rfl (List.mem_singleton.mp hmem).symm
  have hlast : (["--osx-bundle-identifier=com.pdfcompare.app",
      entryPoint]).count popplerEmbedArg = 0 := by decide
  refine ⟨?_, ?_, ?_⟩
  · intro hb he
    simp [hasBundledPoppler, hb, he]
  · unfold pyinstallerArgs
    simp only [List.count_append, hbase, hm1, hm2, hm3, hicon, hlast]
    cases hbp : hasBundledPoppler fs <;> simp
  · unfold pyinstallerArgs
    rw [List.getLast?_append_of_ne_nil _ (by simp)]
    rfl

/-- C1 witness filesystem: the canonical binary and its directory exist. -/
def fsWithPoppler : String → Bool := fun p =>
  p == "vendor/poppler/bin" || p == "vendor/poppler/bin/pdftoppm"

/-- C1 witness: vendor binary present, no Tcl/Tk scan results, no icon. -/
theorem bundled_poppler_embedding_witness :
    (fsWithPoppler (popplerDir ++ "/bin") = true →
      fsWithPoppler (popplerDir ++ "/bin/pdftoppm") = true →
      hasBundledPoppler fsWithPoppler = true)
    ∧ (pyinstallerArgs (hasBundledPoppler fsWithPoppler) [] [] none).count
        popplerEmbedArg
      = (if hasBundledPoppler fsWithPoppler then 1 else 0)
    ∧ (pyinstallerArgs (hasBundledPoppler fsWithPoppler) [] []
        none).getLast? = some entryPoint :=
  bundled_poppler_embedding fsWithPoppler [] [] none
    (fun l hl => absurd hl (List.not_mem_nil l))
    (fun d hd => absurd hd (List.not_mem_nil d))
    (fun p hp => nomatch hp)

/-- C7: outside a frozen artifact the runtime hook is a pure no-op — it
sets no environment variable and loads no shared library, for every bundle
directory and every filesystem. -/
theorem rthook_not_frozen_noop (bundleDir : String)
    (isdir fsExists : String → Bool) :
    rthook false bundleDir isdir fsExists = ⟨[], []⟩ := rfl

/-- C8: when frozen, each of the two shared libraries is resolved
independently with a fallback to the older 8.6 name, and every resolved
library that exists is loaded (in global mode); in a bundle holding only
the secondary-named libraries, both secondary libraries are located and
loaded. -/
theorem rthook_secondary_fallback (b : String)
    (isdir fsExists : String → Bool)
    (h1 : fsExists (b ++ "/libtcl9.0.dylib") = false)
    (h2 : fsExists (b ++ "/libtcl9tk9.0.dylib") = false)
    (h3 : fsExists (b ++ "/libtcl8.6.dylib") = true)
    (h4 : fsExists (b ++ "/libtk8.6.dylib") = true) :
    (rthook true b isdir fsExists).loaded
      = [b ++ "/libtcl8.6.dylib", b ++ "/libtk8.6.dylib"] := by
  simp [rthook, h1, h2, h3, h4]

/-- C8 and C10 witness filesystem: only the secondary-named libraries. -/
def bundleOnlySecondaryLibs : String → Bool := fun p =>
  p == "bundle/libtcl8.6.dylib" || p == "bundle/libtk8.6.dylib"

/-- C8 witness directory predicate: no data directories at all. -/
def bundleNoDirs : String → Bool := fun _ => false

/-- C8 witness: a frozen bundle with only the 8.6 libraries. -/
theorem rthook_secondary_fallback_witness :
    bundleOnlySecondaryLibs ("bundle" ++ "/libtcl9.0.dylib") = false
    ∧ bundleOnlySecondaryLibs ("bundle" ++ "/libtcl9tk9.0.dylib") = false
    ∧ bundleOnlySecondaryLibs ("bundle" ++ "/libtcl8.6.dylib") = true
    ∧ bundleOnlySecondaryLibs ("bundle" ++ "/libtk8.6.dylib") = true
    ∧ (rthook true "bundle" bundleNoDirs bundleOnlySecondaryLibs).loaded
      = ["bundle" ++ "/libtcl8.6.dylib", "bundle" ++ "/libtk8.6.dylib"] :=
  ⟨by decide, by decide, by decide, by decide,
    rthook_secondary_fallback "bundle" bundleNoDirs bundleOnlySecondaryLibs
      (by decide) (by decide) (by decide) (by decide)⟩

/-- C10: the environment-variable step has no version fallback — in a
frozen bundle whose runtime-data directories carry only the older 8.6
names (tcl9.0 and tk9.0 absent), neither TCL_LIBRARY nor TK_LIBRARY is
set, even though the matching older-named libraries are still resolved and
loaded. -/
theorem rthook_env_vars_no_version_fallback (b : String)
    (isdir fsExists : String → Bool)
    (hd1 : isdir (b ++ "/tcl9.0") = false)
    (hd2 : isdir (b ++ "/tk9.0") = false)
    (hd3 : isdir (b ++ "/tcl8.6") = true)
    (hd4 : isdir (b ++ "/tk8.6") = true)
    (h1 : fsExists (b ++ "/libtcl9.0.dylib") = false)
    (h2 : fsExists (b ++ "/libtcl9tk9.0.dylib") = false)
    (h3 : fsExists (b ++ "/libtcl8.6.dylib") = true)
    (h4 : fsExists (b ++ "/libtk8.6.dylib") = true) :
    (rthook true b isdir fsExists).env = []
    ∧ (rthook true b isdir fsExists).loaded
      = [b ++ "/libtcl8.6.dylib", b ++ "/libtk8.6.dylib"] := by
  constructor <;> simp [rthook, hd1, hd2, h1, h2, h3, h4]

/-- C10 witness directory predicate: only the older data directories. -/
def bundleOlderDataDirs : String → Bool := fun p =>
  p == "bundle/tcl8.6" || p == "bundle/tk8.6"

/-- C10 witness: older data directories and older libraries only. -/
theorem rthook_env_vars_no_version_fallback_witness :
    bundleOlderDataDirs ("bundle" ++ "/tcl9.0") = false
    ∧ bundleOlderDataDirs ("bundle" ++ "/tcl8.6") = true
    ∧ (rthook true "bundle" bundleOlderDataDirs
        bundleOnlySecondaryLibs).env = []
    ∧ (rthook true "bundle" bundleOlderDataDirs
        bundleOnlySecondaryLibs).loaded
      = ["bundle" ++ "/libtcl8.6.dylib", "bundle" ++ "/libtk8.6.dylib"] :=
  ⟨by decide, by decide,
    (rthook_env_vars_no_version_fallback "bundle" bundleOlderDataDirs
      bundleOnlySecondaryLibs (by decide) (by decide) (by decide)
      (by decide) (by decide) (by decide) (by decide) (by decide)).1,
    (rthook_env_vars_no_version_fallback "bundle" bundleOlderDataDirs
      bundleOnlySecondaryLibs (by decide) (by decide) (by decide)
      (by decide) (by decide) (by decide) (by decide) (by decide)).2⟩

end PDFCompare
